import Mathlib

/-!
Verification of the lottery draw engine of `lottosolana4.py`.

The development shallowly embeds the pure and stateful core of the program:
time arithmetic and draw scheduling (`get_next_draw_datetime`, `schedule_draw`),
the ticket ledger (`add_ticket`, `update_lottery_pot`, `reset_lottery_pot`,
`mark_tickets_drawn`), the SOL transfer gateway wrapper (`transfer_sol`), and
the draw/settlement job (`draw_job_callback`).

Conventions:
- instants are `Nat` microseconds since the Unix epoch (1970-01-01 was a
  Thursday, so Python's Monday-based `weekday()` of the epoch is 3);
- SOL amounts are exact rationals `ℚ` standing for the Python floats;
- external effects (RPC balance lookups, the Solana gateway, `secrets.choice`)
  are passed in as explicit oracle arguments, so every embedded function is a
  pure function of its inputs.
-/

namespace Lotto

/-- Microseconds per second, the granularity of Python `datetime`. -/
def usPerSecond : Nat := 1000000

/-- Microseconds per minute. -/
def usPerMinute : Nat := 60 * usPerSecond

/-- Microseconds per hour. -/
def usPerHour : Nat := 60 * usPerMinute

/-- Microseconds per day. -/
def usPerDay : Nat := 24 * usPerHour

/-- Python `datetime.weekday()`: Monday = 0 .. Sunday = 6; the epoch day was a
Thursday (= 3). -/
def weekday (t : Nat) : Nat := (t / usPerDay + 3) % 7

/-- Truncation to the top of the hour: `replace(minute=0, second=0, microsecond=0)`. -/
def hourFloor (t : Nat) : Nat := t - t % usPerHour

/-- Truncation to midnight: `replace(hour=0, minute=0, second=0, microsecond=0)`. -/
def dayFloor (t : Nat) : Nat := t - t % usPerDay

/-- Embedding of `get_next_draw_datetime(lottery_type)` (source lines 346-359),
with the wall clock passed explicitly: top of the next hour for `"hourly"`,
today or tomorrow 20:00 UTC for `"daily"`, the coming Sunday 20:00 UTC for
`"weekly"`, and `now` itself for any other string. -/
def get_next_draw_datetime (lottery_type : String) (now : Nat) : Nat :=
  if lottery_type = "hourly" then
    hourFloor (now + usPerHour)
  else if lottery_type = "daily" then
    let draw_today := dayFloor now + 20 * usPerHour
    if now < draw_today then draw_today else draw_today + usPerDay
  else if lottery_type = "weekly" then
    let days_ahead := (6 - weekday now) % 7
    let draw_datetime := dayFloor now + 20 * usPerHour + days_ahead * usPerDay
    if now < draw_datetime then draw_datetime else draw_datetime + 7 * usPerDay
  else
    now

/-- A scheduled draw job: the window instant stored in the job's data and the
wait in microseconds before the job fires. -/
structure ScheduledJob where
  window : Nat
  delay : Int
  deriving DecidableEq, Repr

/-- Embedding of `schedule_draw(lottery_type, job_queue)` (source lines
423-435). The function reads the clock twice (`t1` inside
`get_next_draw_datetime`, `t2` for the delay computation); a negative delay is
clamped to zero, and the job keeps the originally computed window in its data
even when it fires late. -/
def schedule_draw (lottery_type : String) (t1 t2 : Nat) : ScheduledJob :=
  let next_draw_dt := get_next_draw_datetime lottery_type t1
  let delay : Int := (next_draw_dt : Int) - (t2 : Int)
  { window := next_draw_dt, delay := if delay < 0 then 0 else delay }

/-- A row of the `lottery_tickets` table. `draw_date` is the window instant
(the ISO string in the database stands for this instant). -/
structure Ticket where
  telegram_id : Int
  lottery_type : String
  draw_date : Nat
  ticket_count : Int
  amount_spent : ℚ
  won : ℚ
  drawn : Bool
  deriving DecidableEq, Repr

/-- The lottery database: the `lottery_tickets` rows in insertion order and the
`lottery_pot` table as a map from `lottery_type` to the live pot value. -/
structure LotteryState where
  tickets : List Ticket
  pot : String → ℚ

/-- Embedding of `add_ticket` (source lines 234-240): unconditionally inserts a
row with `won = 0` and `drawn = 0`; the source performs no validation of
`ticket_count` or `amount_spent`. -/
def add_ticket (s : LotteryState) (telegram_id : Int) (lottery_type : String)
    (draw_date : Nat) (ticket_count : Int) (amount_spent : ℚ) : LotteryState :=
  { s with tickets := s.tickets ++
      [{ telegram_id := telegram_id, lottery_type := lottery_type,
         draw_date := draw_date, ticket_count := ticket_count,
         amount_spent := amount_spent, won := 0, drawn := false }] }

/-- Embedding of `update_lottery_pot` (source lines 251-256):
`UPDATE lottery_pot SET pot = pot + ? WHERE lottery_type = ?`. -/
def update_lottery_pot (s : LotteryState) (lottery_type : String)
    (additional_amount : ℚ) : LotteryState :=
  { s with pot := fun lt =>
      if lt = lottery_type then s.pot lt + additional_amount else s.pot lt }

/-- Embedding of `reset_lottery_pot` (source lines 258-263). The source defines
this function but never calls it anywhere in the program. -/
def reset_lottery_pot (s : LotteryState) (lottery_type : String) : LotteryState :=
  { s with pot := fun lt => if lt = lottery_type then 0 else s.pot lt }

/-- Embedding of `mark_tickets_drawn` (source lines 273-279). The source
defines this function but never calls it anywhere in the program. -/
def mark_tickets_drawn (s : LotteryState) (lottery_type : String)
    (draw_date : Nat) : LotteryState :=
  { s with tickets := s.tickets.map fun tk =>
      if tk.lottery_type == lottery_type && tk.draw_date == draw_date && !tk.drawn
      then { tk with drawn := true } else tk }

/-- The query at source lines 445-446: tickets of the window with `drawn = 0`. -/
def unsettledTickets (s : LotteryState) (lottery_type : String)
    (draw_date : Nat) : List Ticket :=
  s.tickets.filter fun tk =>
    tk.lottery_type == lottery_type && tk.draw_date == draw_date && !tk.drawn

/-- Outcome of one Solana gateway interaction (blockhash fetch plus
`send_transaction`): a transaction id, or any raised error. -/
inductive GatewayOutcome where
  | ok (tx : String)
  | errored
  deriving DecidableEq, Repr

/-- Rent-exemption floor kept in the sender account, `MIN_RENT_EXEMPT_SOL`
(source line 314). -/
def MIN_RENT_EXEMPT_SOL : ℚ := 0.002

/-- Python `int()` applied to a float: truncation toward zero. -/
def pythonInt (q : ℚ) : Int := if q < 0 then ⌈q⌉ else ⌊q⌋

/-- A transfer that reached the gateway: the (possibly capped) SOL amount, the
lamports handed to the transfer instruction, and the returned transaction id. -/
structure TransferSent where
  amount_sol : ℚ
  lamports : Int
  tx : String
  deriving DecidableEq, Repr

/-- Embedding of `transfer_sol` (source lines 309-343). External effects are
inputs: `keyValid` is whether `Keypair.from_private_key` succeeds,
`sender_balance` is what `get_onchain_balance` reports (it returns `0.0` on
RPC errors), `destValid` is whether `PublicKey(to_address)` succeeds, and
`gateway` is the blockhash-fetch-and-send interaction on the built lamports.
The whole body sits in a `try/except` returning `None`, so every failure path
is `none`; the Python function returns only the transaction id, and the
embedding additionally records the amount actually handed to the gateway. -/
def transfer_sol (keyValid : Bool) (sender_balance : ℚ) (destValid : Bool)
    (amount_sol : ℚ) (max_transfer_if_insufficient : Bool)
    (gateway : Int → GatewayOutcome) : Option TransferSent :=
  if !keyValid then none else
  let max_transferable := sender_balance - MIN_RENT_EXEMPT_SOL
  if max_transferable ≤ 0 then none
  else if !max_transfer_if_insufficient &&
      decide (sender_balance < amount_sol + MIN_RENT_EXEMPT_SOL) then none
  else
    let amount := if max_transfer_if_insufficient &&
        decide (max_transferable < amount_sol) then max_transferable else amount_sol
    if !destValid then none else
    let lamports := pythonInt (amount * 1000000000)
    match gateway lamports with
    | .ok tx => some { amount_sol := amount, lamports := lamports, tx := tx }
    | .errored => none

/-- Operator cut rate, `OPERATOR_CUT_PERCENT` (source line 86). -/
def OPERATOR_CUT_PERCENT : ℚ := 0.10

/-- Embedding of `secrets.choice` on a list: an arbitrary index `k` supplied by
the randomness oracle, reduced modulo the length; for a nonempty list the
result is an element of the list. -/
def choice (l : List Int) (k : Nat) : Int := l.getD (k % l.length) 0

/-- Embedding of the winner-selection block of `draw_job_callback` (source
lines 452-467): up to three draws; after each draw every entry equal to the
chosen owner is removed before the next place. The randomness oracle supplies
one index per place. -/
def select_winners (entries : List Int) (k1 k2 k3 : Nat) : List Int :=
  if entries = [] then [] else
  let first := choice entries k1
  let rem1 := entries.filter fun x => x != first
  if rem1 = [] then [first] else
  let second := choice rem1 k2
  let rem2 := rem1.filter fun x => x != second
  if rem2 = [] then [first, second] else
  [first, second, choice rem2 k3]

/-- The pot share the prizes are computed from (source lines 470-481):
`remaining_pot = total_pot - operator_cut`, reassigned to the full `total_pot`
only in the branch where `OPERATOR_PAYOUT_WALLET_ADDRESS` is not configured;
the outcome of the operator-cut transfer itself is only logged and does not
change the value. -/
def remaining_pot_used (total_pot : ℚ) (operator_payout_configured : Bool)
    (cut_transfer_ok : Bool) : ℚ :=
  let operator_cut := total_pot * OPERATOR_CUT_PERCENT
  let remaining_pot := total_pot - operator_cut
  if operator_payout_configured then remaining_pot else total_pot

/-- The prize tiers of source line 481: 70% / 20% / 10% of the remaining pot,
in draw order. -/
def tier_prizes (remaining_pot : ℚ) : List ℚ :=
  [remaining_pot * 0.70, remaining_pot * 0.20, remaining_pot * 0.10]

/-- Status recorded per winner in the `results` list of `draw_job_callback`. -/
inductive TransferStatus where
  | sent (tx : String)
  | transferFailed
  | winnerNotFound
  deriving DecidableEq, Repr

/-- External effects of one draw run: the three `secrets.choice` indices,
whether `OPERATOR_PAYOUT_WALLET_ADDRESS` is configured, the outcome of the
operator-cut `transfer_sol` call, the `get_user` lookup (the winner's wallet
row), and the outcome of each winner's `transfer_sol` call. -/
structure DrawOracle where
  k1 : Nat
  k2 : Nat
  k3 : Nat
  operator_payout_configured : Bool
  cut_transfer : GatewayOutcome
  user_wallet : Int → Option String
  winner_transfer : Int → GatewayOutcome

/-- Whether a gateway interaction returned a transaction id. -/
def GatewayOutcome.isOk : GatewayOutcome → Bool
  | .ok _ => true
  | .errored => false

/-- Result of one `draw_job_callback` run: the database state afterwards and
the `results` list of `(winner_id, prize, status)` triples. -/
structure DrawRun where
  state : LotteryState
  results : List (Int × ℚ × TransferStatus)

/-- The SQL update at source lines 492-493 for one paid winner:
`SET won = won + prize` on every row matching `(telegram_id, lottery_type,
draw_date)` — with no `drawn` filter. -/
def apply_winner_update (s : LotteryState) (winner_id : Int)
    (lottery_type : String) (draw_date : Nat) (prize : ℚ) : LotteryState :=
  { s with tickets := s.tickets.map fun tk =>
      if tk.telegram_id == winner_id && tk.lottery_type == lottery_type &&
          tk.draw_date == draw_date
      then { tk with won := tk.won + prize } else tk }

/-- One iteration of the winner loop at source lines 483-499: look the winner
up, attempt the prize transfer, and either record the paid prize on the
winner's rows or record the failure in the results. -/
def pay_winner (lottery_type : String) (draw_date : Nat) (o : DrawOracle)
    (prizes : List ℚ) (run : DrawRun) (iw : Nat × Int) : DrawRun :=
  let prize := prizes.getD iw.1 0
  let winner_id := iw.2
  match o.user_wallet winner_id with
  | none =>
      { run with results := run.results ++ [(winner_id, prize, .winnerNotFound)] }
  | some _ =>
      match o.winner_transfer winner_id with
      | .ok tx =>
          { state := apply_winner_update run.state winner_id lottery_type
              draw_date prize,
            results := run.results ++ [(winner_id, prize, .sent tx)] }
      | .errored =>
          { run with results := run.results ++ [(winner_id, prize, .transferFailed)] }

/-- Embedding of the database effects of `draw_job_callback` (source lines
437-518) for one `(lottery_type, draw_date)` window: read the unsettled rows,
expand each into `ticket_count` entries, select winners, compute prizes from
`remaining_pot_used`, and run `pay_winner` over the enumerated winner list.
The source never calls `mark_tickets_drawn` or `reset_lottery_pot` here, so no
ticket's `drawn` flag and no pot value is changed by a draw. -/
def draw_job_callback (s : LotteryState) (lottery_type : String)
    (draw_date : Nat) (o : DrawOracle) : DrawRun :=
  let rows := unsettledTickets s lottery_type draw_date
  if rows = [] then { state := s, results := [] }
  else
    let entries := rows.flatMap fun tk =>
      List.replicate tk.ticket_count.toNat tk.telegram_id
    let winners := select_winners entries o.k1 o.k2 o.k3
    let total_pot := s.pot lottery_type
    let remaining_pot := remaining_pot_used total_pot o.operator_payout_configured
      o.cut_transfer.isOk
    let prizes := tier_prizes remaining_pot
    winners.enum.foldl (pay_winner lottery_type draw_date o prizes)
      { state := s, results := [] }

/-- Embedding of the confirmed-purchase tail of
`confirm_buy_ticket_hourly_callback` (source lines 1786-1798) and its daily and
weekly twins: the ticket-price `transfer_sol` outcome decides everything — on
`none` nothing is written, on a transaction id `add_ticket` then
`update_lottery_pot` run for the next window of the cadence. -/
def confirm_buy_ticket (s : LotteryState) (telegram_id : Int)
    (lottery_type : String) (now : Nat) (ticket_price : ℚ)
    (transfer_result : Option String) : LotteryState :=
  match transfer_result with
  | some _ =>
      let draw_dt := get_next_draw_datetime lottery_type now
      update_lottery_pot
        (add_ticket s telegram_id lottery_type draw_dt 1 ticket_price)
        lottery_type ticket_price
  | none => s

/-- A single confirmed hourly ticket of 0.001 SOL for the window at hour 1 of
the epoch day, used to exercise `draw_job_callback` on concrete input. -/
def testTicket : Ticket :=
  { telegram_id := 7, lottery_type := "hourly", draw_date := usPerHour,
    ticket_count := 1, amount_spent := 1/1000, won := 0, drawn := false }

/-- A database holding exactly `testTicket`, with the hourly pot at 0.001 SOL. -/
def testState : LotteryState :=
  { tickets := [testTicket], pot := fun lt => if lt = "hourly" then 1/1000 else 0 }

/-- A draw environment where everything succeeds: the operator payout wallet is
configured, the cut transfer and every winner transfer return a transaction id,
and every winner has a wallet row. -/
def testOracle : DrawOracle :=
  { k1 := 0, k2 := 0, k3 := 0, operator_payout_configured := true,
    cut_transfer := .ok "cut-tx", user_wallet := fun _ => some "wallet-addr",
    winner_transfer := fun _ => .ok "prize-tx" }

/-- The freshly initialised lottery database: no tickets, all pots zero. -/
def emptyState : LotteryState := { tickets := [], pot := fun _ => 0 }

/-- A gateway that accepts every transfer and returns the transaction id
`"tx"`, for exercising `transfer_sol` on concrete input. -/
def gatewayOk : Int → GatewayOutcome := fun _ => GatewayOutcome.ok "tx"

/-- Three confirmed hourly purchases of 0.001 SOL each by users 1, 2, 3 at
instant 0, all landing in the window at hour 1 of the epoch day. -/
def threePurchases : LotteryState :=
  confirm_buy_ticket
    (confirm_buy_ticket
      (confirm_buy_ticket emptyState 1 "hourly" 0 (1/1000) (some "tx1"))
      2 "hourly" 0 (1/1000) (some "tx2"))
    3 "hourly" 0 (1/1000) (some "tx3")

/-! Helper lemmas about the draw-time arithmetic. -/

theorem next_hourly_eq (t : Nat) :
    get_next_draw_datetime "hourly" t = hourFloor (t + usPerHour) := by
  simp only [get_next_draw_datetime, String.reduceEq, reduceIte]

theorem next_daily_eq (t : Nat) :
    get_next_draw_datetime "daily" t =
      (if t < dayFloor t + 20 * usPerHour then dayFloor t + 20 * usPerHour
       else dayFloor t + 20 * usPerHour + usPerDay) := by
  simp only [get_next_draw_datetime, String.reduceEq, reduceIte]

theorem next_weekly_eq (t : Nat) :
    get_next_draw_datetime "weekly" t =
      (if t < dayFloor t + 20 * usPerHour + ((6 - weekday t) % 7) * usPerDay
       then dayFloor t + 20 * usPerHour + ((6 - weekday t) % 7) * usPerDay
       else dayFloor t + 20 * usPerHour + ((6 - weekday t) % 7) * usPerDay
            + 7 * usPerDay) := by
  simp only [get_next_draw_datetime, String.reduceEq, reduceIte]

theorem hourly_spec (t : Nat) :
    t < get_next_draw_datetime "hourly" t ∧
    get_next_draw_datetime "hourly" t % usPerHour = 0 ∧
    get_next_draw_datetime "hourly" t ≤ t + usPerHour := by
  rw [next_hourly_eq]
  simp only [hourFloor, usPerHour, usPerMinute, usPerSecond]
  omega

theorem daily_spec (t : Nat) :
    t < get_next_draw_datetime "daily" t ∧
    get_next_draw_datetime "daily" t % usPerDay = 20 * usPerHour ∧
    get_next_draw_datetime "daily" t ≤ t + usPerDay := by
  rw [next_daily_eq]
  simp only [dayFloor, usPerDay, usPerHour, usPerMinute, usPerSecond]
  split <;> omega

set_option maxHeartbeats 1000000 in
theorem weekly_spec (t : Nat) :
    t < get_next_draw_datetime "weekly" t ∧
    get_next_draw_datetime "weekly" t % usPerDay = 20 * usPerHour ∧
    weekday (get_next_draw_datetime "weekly" t) = 6 ∧
    get_next_draw_datetime "weekly" t ≤ t + 7 * usPerDay := by
  rw [next_weekly_eq]
  simp only [weekday, dayFloor, usPerDay, usPerHour, usPerMinute, usPerSecond]
  split <;> omega

/-- C6: for every cadence and every current instant `t`, the computed next
draw time is strictly after `t` and satisfies the cadence rule — the top of
the next hour for hourly (a multiple of an hour, at most an hour away); 20:00
UTC for daily (offset 20 h into its day, at most a day away); Sunday 20:00 UTC
for weekly (offset 20 h into its day, on a Python weekday-6 day, at most a
week away). Boundary instants are covered since `t` is universally
quantified. -/
theorem get_next_draw_datetime_correct (t : Nat) :
    (t < get_next_draw_datetime "hourly" t ∧
     get_next_draw_datetime "hourly" t % usPerHour = 0 ∧
     get_next_draw_datetime "hourly" t ≤ t + usPerHour) ∧
    (t < get_next_draw_datetime "daily" t ∧
     get_next_draw_datetime "daily" t % usPerDay = 20 * usPerHour ∧
     get_next_draw_datetime "daily" t ≤ t + usPerDay) ∧
    (t < get_next_draw_datetime "weekly" t ∧
     get_next_draw_datetime "weekly" t % usPerDay = 20 * usPerHour ∧
     weekday (get_next_draw_datetime "weekly" t) = 6 ∧
     get_next_draw_datetime "weekly" t ≤ t + 7 * usPerDay) :=
  ⟨hourly_spec t, daily_spec t, weekly_spec t⟩

/-- C5 counterexample: restart the scheduler five minutes after the hourly
window at hour 14 of the epoch day, with that window not yet fired.
`schedule_draw` schedules the window at hour 15, not the overdue hour-14
window, so the overdue window never fires: the claim that an overdue window
still fires on recovery before the scheduler advances is false on this code. -/
theorem missed_window_skipped_on_restart :
    (14 * usPerHour) % usPerHour = 0 ∧
    14 * usPerHour < 14 * usPerHour + 5 * usPerMinute ∧
    (schedule_draw "hourly" (14 * usPerHour + 5 * usPerMinute)
        (14 * usPerHour + 5 * usPerMinute)).window = 15 * usPerHour ∧
    15 * usPerHour ≠ 14 * usPerHour := by decide

/-- C5 amended: within a running process an already-due wait is not skipped —
the delay is clamped to be non-negative and the job keeps its originally
computed window, so it fires immediately for that window. But on (re)start the
window scheduled is `get_next_draw_datetime` of the current clock, which is
strictly after now; no window at or before the restart instant — in
particular, none missed while the process was offline — is ever the scheduled
one. -/
theorem schedule_draw_no_catchup (lottery_type : String) (t1 t2 : Nat)
    (h : lottery_type = "hourly" ∨ lottery_type = "daily" ∨
      lottery_type = "weekly") :
    0 ≤ (schedule_draw lottery_type t1 t2).delay ∧
    (schedule_draw lottery_type t1 t2).window =
      get_next_draw_datetime lottery_type t1 ∧
    t1 < (schedule_draw lottery_type t1 t2).window ∧
    ∀ w, w ≤ t1 → (schedule_draw lottery_type t1 t2).window ≠ w := by
  have hgt : t1 < get_next_draw_datetime lottery_type t1 := by
    rcases h with h | h | h <;> subst h
    · exact (hourly_spec t1).1
    · exact (daily_spec t1).1
    · exact (weekly_spec t1).1
  refine ⟨?_, rfl, hgt, ?_⟩
  · simp only [schedule_draw]
    split <;> omega
  · intro w hw heq
    have : (schedule_draw lottery_type t1 t2).window =
        get_next_draw_datetime lottery_type t1 := rfl
    omega

/-- Witness for `schedule_draw_no_catchup` at the hourly cadence and instant 0. -/
theorem schedule_draw_no_catchup_witness :
    (("hourly" : String) = "hourly" ∨ ("hourly" : String) = "daily" ∨
      ("hourly" : String) = "weekly") ∧
    (0 ≤ (schedule_draw "hourly" 0 0).delay ∧
     (schedule_draw "hourly" 0 0).window = get_next_draw_datetime "hourly" 0 ∧
     0 < (schedule_draw "hourly" 0 0).window ∧
     ∀ w, w ≤ 0 → (schedule_draw "hourly" 0 0).window ≠ w) :=
  ⟨Or.inl rfl, schedule_draw_no_catchup "hourly" 0 0 (Or.inl rfl)⟩

/-- For a nonempty pool, `secrets.choice` returns an element of the pool,
whatever index the randomness oracle supplies. -/
theorem choice_mem (l : List Int) (k : Nat) (h : l ≠ []) : choice l k ∈ l := by
  have hlen : 0 < l.length := List.length_pos.mpr h
  have hk : k % l.length < l.length := Nat.mod_lt _ hlen
  rw [choice, List.getD_eq_getElem _ _ hk]
  exact List.getElem_mem hk

/-- C3: for every non-empty draw pool, winner selection never repeats an
owner (all entries of a chosen owner are filtered out before the next place),
every winner comes from the pool, and the number of places awarded is the
minimum of 3 and the number of distinct owners in the pool — so 3 places for
at least 3 distinct owners, and exactly 1 or 2 places for 1 or 2. -/
theorem select_winners_spec (entries : List Int) (k1 k2 k3 : Nat)
    (h : entries ≠ []) :
    (select_winners entries k1 k2 k3).Nodup ∧
    (∀ w ∈ select_winners entries k1 k2 k3, w ∈ entries) ∧
    (select_winners entries k1 k2 k3).length = min 3 entries.toFinset.card := by
  have hfirst : choice entries k1 ∈ entries := choice_mem entries k1 h
  simp only [select_winners, if_neg h]
  split_ifs with h1 h2
  · -- all entries carry the first winner: one distinct owner, one place
    have hall : ∀ x ∈ entries, x = choice entries k1 := by
      intro x hx
      by_contra hne
      have hmem : x ∈ entries.filter (fun x => x != choice entries k1) :=
        List.mem_filter.mpr ⟨hx, by simpa [bne_iff_ne] using hne⟩
      simp [h1] at hmem
    have hsing : entries.toFinset = {choice entries k1} :=
      Finset.eq_singleton_iff_unique_mem.mpr
        ⟨List.mem_toFinset.mpr hfirst, fun x hx => hall x (List.mem_toFinset.mp hx)⟩
    refine ⟨by simp, by simp [hfirst], ?_⟩
    simp [hsing]
  · -- exactly two distinct owners, two places
    have h1x : entries.filter (fun x => x != choice entries k1) ≠ [] := h1
    have hsec := choice_mem _ k2 h1x
    have hsec2 := List.mem_filter.mp hsec
    have hne : choice (entries.filter (fun x => x != choice entries k1)) k2 ≠
        choice entries k1 := by
      simpa [bne_iff_ne] using hsec2.2
    have hall : ∀ x ∈ entries, x = choice entries k1 ∨
        x = choice (entries.filter (fun x => x != choice entries k1)) k2 := by
      intro x hx
      by_contra hne2
      push_neg at hne2
      have hm1 : x ∈ entries.filter (fun x => x != choice entries k1) :=
        List.mem_filter.mpr ⟨hx, by simpa [bne_iff_ne] using hne2.1⟩
      have hm2 : x ∈ (entries.filter (fun x => x != choice entries k1)).filter
          (fun x => x != choice (entries.filter (fun x => x != choice entries k1)) k2) :=
        List.mem_filter.mpr ⟨hm1, by simpa [bne_iff_ne] using hne2.2⟩
      simp [h2] at hm2
    have hpair : entries.toFinset =
        {choice entries k1,
         choice (entries.filter (fun x => x != choice entries k1)) k2} := by
      ext x
      simp only [List.mem_toFinset, Finset.mem_insert, Finset.mem_singleton]
      constructor
      · exact fun hx => hall x hx
      · intro hx
        rcases hx with rfl | rfl
        · exact hfirst
        · exact hsec2.1
    have hc2 : entries.toFinset.card = 2 := by
      rw [hpair]
      exact Finset.card_pair (Ne.symm hne)
    refine ⟨?_, ?_, ?_⟩
    · exact List.nodup_cons.mpr ⟨by simp [Ne.symm hne], List.nodup_singleton _⟩
    · intro w hw
      simp only [List.mem_cons, List.mem_singleton, List.not_mem_nil, or_false] at hw
      rcases hw with rfl | rfl
      · exact hfirst
      · exact hsec2.1
    · show 2 = min 3 entries.toFinset.card
      rw [hc2]
      decide
  · -- at least three distinct owners, three places
    have h1x : entries.filter (fun x => x != choice entries k1) ≠ [] := h1
    have hsec := choice_mem _ k2 h1x
    have hsec2 := List.mem_filter.mp hsec
    have h2x : (entries.filter (fun x => x != choice entries k1)).filter
        (fun x => x != choice (entries.filter (fun x => x != choice entries k1)) k2)
        ≠ [] := h2
    have hthird := choice_mem _ k3 h2x
    have hthird2 := List.mem_filter.mp hthird
    have hthird3 := List.mem_filter.mp hthird2.1
    have hne21 : choice (entries.filter (fun x => x != choice entries k1)) k2 ≠
        choice entries k1 := by
      simpa [bne_iff_ne] using hsec2.2
    have hne32 : choice ((entries.filter (fun x => x != choice entries k1)).filter
          (fun x => x != choice (entries.filter (fun x => x != choice entries k1)) k2)) k3 ≠
        choice (entries.filter (fun x => x != choice entries k1)) k2 := by
      simpa [bne_iff_ne] using hthird2.2
    have hne31 : choice ((entries.filter (fun x => x != choice entries k1)).filter
          (fun x => x != choice (entries.filter (fun x => x != choice entries k1)) k2)) k3 ≠
        choice entries k1 := by
      simpa [bne_iff_ne] using hthird3.2
    have hsub : ({choice entries k1,
        choice (entries.filter (fun x => x != choice entries k1)) k2,
        choice ((entries.filter (fun x => x != choice entries k1)).filter
          (fun x => x != choice (entries.filter (fun x => x != choice entries k1)) k2)) k3}
        : Finset Int) ⊆ entries.toFinset := by
      intro x hx
      simp only [Finset.mem_insert, Finset.mem_singleton] at hx
      rcases hx with rfl | rfl | rfl
      · exact List.mem_toFinset.mpr hfirst
      · exact List.mem_toFinset.mpr hsec2.1
      · exact List.mem_toFinset.mpr hthird3.1
    have hnm : choice entries k1 ∉
        ({choice (entries.filter (fun x => x != choice entries k1)) k2,
          choice ((entries.filter (fun x => x != choice entries k1)).filter
            (fun x => x != choice (entries.filter (fun x => x != choice entries k1)) k2)) k3}
          : Finset Int) := by
      simp only [Finset.mem_insert, Finset.mem_singleton]
      push_neg
      exact ⟨Ne.symm hne21, Ne.symm hne31⟩
    have hcard3 : ({choice entries k1,
        choice (entries.filter (fun x => x != choice entries k1)) k2,
        choice ((entries.filter (fun x => x != choice entries k1)).filter
          (fun x => x != choice (entries.filter (fun x => x != choice entries k1)) k2)) k3}
        : Finset Int).card = 3 := by
      rw [Finset.card_insert_of_not_mem hnm, Finset.card_pair (Ne.symm hne32)]
    have hge : 3 ≤ entries.toFinset.card :=
      hcard3 ▸ Finset.card_le_card hsub
    refine ⟨?_, ?_, ?_⟩
    · refine List.nodup_cons.mpr ⟨?_, List.nodup_cons.mpr ⟨?_, List.nodup_singleton _⟩⟩
      · simp only [List.mem_cons, List.mem_singleton, List.not_mem_nil, or_false]
        push_neg
        exact ⟨Ne.symm hne21, Ne.symm hne31⟩
      · simp only [List.mem_singleton]
        exact Ne.symm hne32
    · intro w hw
      simp only [List.mem_cons, List.mem_singleton, List.not_mem_nil, or_false] at hw
      rcases hw with rfl | rfl | rfl
      · exact hfirst
      · exact hsec2.1
      · exact hthird3.1
    · show 3 = min 3 entries.toFinset.card
      exact (min_eq_left hge).symm

/-- Witness for `select_winners_spec` on the pool `[5, 5, 7, 9]` (three
distinct owners) with explicit randomness indices. -/
theorem select_winners_spec_witness :
    (([5, 5, 7, 9] : List Int) ≠ []) ∧
    ((select_winners [5, 5, 7, 9] 1 2 3).Nodup ∧
     (∀ w ∈ select_winners [5, 5, 7, 9] 1 2 3, w ∈ ([5, 5, 7, 9] : List Int)) ∧
     (select_winners [5, 5, 7, 9] 1 2 3).length =
       min 3 ([5, 5, 7, 9] : List Int).toFinset.card) :=
  ⟨by decide, select_winners_spec [5, 5, 7, 9] 1 2 3 (by decide)⟩

/-- C1 (code bug): the draw/settlement is not idempotent. On a one-ticket
hourly window with pot 0.001 SOL, the first run selects owner 7 and requests a
prize transfer of 0.00063 SOL but leaves the ticket undrawn —
`mark_tickets_drawn` (source lines 273-279) is never called by
`draw_job_callback`. A second run for the same `(cadence, window)` therefore
re-reads the same unsettled ticket, selects the winner again, requests the
transfer again, and re-mutates the ticket (its `won` doubles to 0.00126)
instead of skipping the settled window. -/
theorem draw_job_callback_not_idempotent :
    (draw_job_callback testState "hourly" usPerHour testOracle).results =
      [(7, 63/100000, .sent "prize-tx")] ∧
    ((draw_job_callback testState "hourly" usPerHour testOracle).state.tickets.map
      Ticket.drawn) = [false] ∧
    unsettledTickets
      (draw_job_callback testState "hourly" usPerHour testOracle).state
      "hourly" usPerHour ≠ [] ∧
    (draw_job_callback
        (draw_job_callback testState "hourly" usPerHour testOracle).state
        "hourly" usPerHour testOracle).results =
      [(7, 63/100000, .sent "prize-tx")] ∧
    ((draw_job_callback
        (draw_job_callback testState "hourly" usPerHour testOracle).state
        "hourly" usPerHour testOracle).state.tickets.map Ticket.won) =
      [63/50000] := by
  norm_num [draw_job_callback, unsettledTickets, testState, testTicket,
    testOracle, select_winners, choice, remaining_pot_used, tier_prizes,
    pay_winner, apply_winner_update, OPERATOR_CUT_PERCENT, GatewayOutcome.isOk,
    List.enum, List.enumFrom, List.replicate, List.filter, List.foldl]

/-- One `pay_winner` step never touches the `lottery_pot` table. -/
theorem pay_winner_pot (lottery_type : String) (draw_date : Nat)
    (o : DrawOracle) (prizes : List ℚ) (run : DrawRun) (iw : Nat × Int) :
    (pay_winner lottery_type draw_date o prizes run iw).state.pot =
      run.state.pot := by
  simp only [pay_winner]
  split
  · rfl
  · split
    · rfl
    · rfl

/-- The winner loop never touches the `lottery_pot` table. -/
theorem foldl_pay_winner_pot (lottery_type : String) (draw_date : Nat)
    (o : DrawOracle) (prizes : List ℚ) (l : List (Nat × Int)) (run : DrawRun) :
    (l.foldl (pay_winner lottery_type draw_date o prizes) run).state.pot =
      run.state.pot := by
  induction l generalizing run with
  | nil => rfl
  | cons x xs ih =>
    rw [List.foldl_cons, ih, pay_winner_pot]

/-- A draw run never changes any pot: `draw_job_callback` contains no call to
`reset_lottery_pot` (or any other pot write). -/
theorem draw_job_callback_pot (s : LotteryState) (lottery_type : String)
    (draw_date : Nat) (o : DrawOracle) :
    (draw_job_callback s lottery_type draw_date o).state.pot = s.pot := by
  by_cases h : unsettledTickets s lottery_type draw_date = []
  · simp [draw_job_callback, h]
  · simp only [draw_job_callback]
    rw [if_neg h]
    exact foldl_pay_winner_pot ..

/-- C2 (code bug): after three confirmed purchases of 0.001 SOL into the open
hourly window the pot is 3 × 0.001 as the claim states, and the window's
unsettled set is non-empty, but after the window's draw completes the pot is
still 0.003, not 0 — `reset_lottery_pot` (source lines 258-263) is never
called by `draw_job_callback` (`draw_job_callback_pot`), so settlement never
resets the cadence's pot and the invariant that the pot equals the unsettled
sum of the current window breaks as soon as the window advances. -/
theorem pot_not_reset_by_draw :
    threePurchases.pot "hourly" = 3 * (1/1000) ∧
    (threePurchases.tickets.map Ticket.amount_spent) =
      [1/1000, 1/1000, 1/1000] ∧
    unsettledTickets threePurchases "hourly" usPerHour ≠ [] ∧
    (draw_job_callback threePurchases "hourly" usPerHour testOracle).state.pot
      "hourly" = 3/1000 ∧
    (3/1000 : ℚ) ≠ 0 := by
  have hpot : threePurchases.pot "hourly" = 3/1000 := by
    simp [threePurchases, emptyState, confirm_buy_ticket, add_ticket,
      update_lottery_pot]
    norm_num
  refine ⟨by rw [hpot]; norm_num, ?_, ?_, ?_, by norm_num⟩
  · simp [threePurchases, emptyState, confirm_buy_ticket, add_ticket,
      update_lottery_pot]
  · simp [unsettledTickets, threePurchases, emptyState, confirm_buy_ticket,
      add_ticket, update_lottery_pot]
    norm_num [next_hourly_eq, hourFloor, usPerHour, usPerMinute, usPerSecond]
  · rw [draw_job_callback_pot, hpot]


/-- C9: under the cap-to-available flag (used for winner prizes) the amount
handed to the gateway is the minimum of the requested amount and the maximum
transferable (balance minus the rent-exemption floor) — never more than
requested; without the flag, a balance short of amount plus the rent floor
makes `transfer_sol` return `None` with no transaction built. -/
theorem transfer_sol_cap_spec (keyValid destValid : Bool) (bal amt : ℚ)
    (gateway : Int → GatewayOutcome) :
    (∀ r, transfer_sol keyValid bal destValid amt true gateway = some r →
      r.amount_sol = min amt (bal - MIN_RENT_EXEMPT_SOL) ∧ r.amount_sol ≤ amt) ∧
    (bal < amt + MIN_RENT_EXEMPT_SOL →
      transfer_sol keyValid bal destValid amt false gateway = none) := by
  constructor
  · intro r hr
    cases keyValid with
    | false => simp [transfer_sol] at hr
    | true =>
      by_cases hm : bal - MIN_RENT_EXEMPT_SOL ≤ 0
      · simp [transfer_sol, hm] at hr
      · cases destValid with
        | false => simp [transfer_sol, hm] at hr
        | true =>
          by_cases hc : bal - MIN_RENT_EXEMPT_SOL < amt
          · rcases hg : gateway (pythonInt ((bal - MIN_RENT_EXEMPT_SOL) * 1000000000)) with tx | _
            · simp [transfer_sol, hm, hc, hg] at hr
              have : r.amount_sol = bal - MIN_RENT_EXEMPT_SOL := by
                rw [← hr]
              constructor
              · rw [this, min_eq_right (le_of_lt hc)]
              · rw [this]; exact le_of_lt hc
            · simp [transfer_sol, hm, hc, hg] at hr
          · push_neg at hc
            rcases hg : gateway (pythonInt (amt * 1000000000)) with tx | _
            · simp [transfer_sol, hm, not_lt.mpr hc, hg] at hr
              have : r.amount_sol = amt := by rw [← hr]
              constructor
              · rw [this, min_eq_left hc]
              · rw [this]
            · simp [transfer_sol, hm, not_lt.mpr hc, hg] at hr
  · intro hlt
    cases keyValid with
    | false => simp [transfer_sol]
    | true =>
      by_cases hm : bal - MIN_RENT_EXEMPT_SOL ≤ 0
      · simp [transfer_sol, hm]
      · simp [transfer_sol, hm, hlt]

/-- Witness for `transfer_sol_cap_spec`: balance 0.01 SOL, request 0.02 SOL.
With the cap flag the amount is reduced to 0.008 (= 0.01 minus the 0.002 rent
floor); without the flag the transfer fails outright. -/
theorem transfer_sol_cap_spec_witness :
    ((8 : ℚ)/1000 = min ((2 : ℚ)/100) ((1 : ℚ)/100 - MIN_RENT_EXEMPT_SOL) ∧
      (8 : ℚ)/1000 ≤ (2 : ℚ)/100) ∧
    ((1 : ℚ)/100 < (2 : ℚ)/100 + MIN_RENT_EXEMPT_SOL ∧
      transfer_sol true (1/100) true (2/100) false gatewayOk = none) :=
  ⟨(transfer_sol_cap_spec true true (1/100) (2/100) gatewayOk).1
      ⟨8/1000, 8000000, "tx"⟩
      (by norm_num [transfer_sol, MIN_RENT_EXEMPT_SOL, gatewayOk, pythonInt]),
   ⟨by norm_num [MIN_RENT_EXEMPT_SOL],
    (transfer_sol_cap_spec true true (1/100) (2/100) gatewayOk).2
      (by norm_num [MIN_RENT_EXEMPT_SOL])⟩⟩

/-- C10: `transfer_sol` is total at its public interface — every input,
including an invalid key, an exhausted balance, an invalid destination and a
failing gateway, yields `none` (the caught-exception / early-return paths),
and any non-`none` result is exactly the gateway result for the transaction
that was sent. -/
theorem transfer_sol_total_interface (keyValid destValid : Bool) (bal amt : ℚ)
    (flag : Bool) (gateway : Int → GatewayOutcome) :
    transfer_sol keyValid bal destValid amt flag gateway = none ∨
    ∃ r, transfer_sol keyValid bal destValid amt flag gateway = some r ∧
      gateway r.lamports = GatewayOutcome.ok r.tx := by
  simp only [transfer_sol]
  split
  · exact Or.inl rfl
  split
  · exact Or.inl rfl
  split
  · exact Or.inl rfl
  split
  · exact Or.inl rfl
  split
  · rename_i tx h
    exact Or.inr ⟨_, rfl, h⟩
  · exact Or.inl rfl

/-- C4 counterexample: with the operator payout channel configured but its
transfer failing, the code does not fall back to the full pot — for a total
pot of 1 SOL the prizes are computed from 0.9 SOL, while the claim requires
the fallback value 1 SOL in that case. -/
theorem cut_failure_no_fallback :
    remaining_pot_used 1 true false = 9/10 ∧ ((9 : ℚ)/10) ≠ 1 := by
  norm_num [remaining_pot_used, OPERATOR_CUT_PERCENT]

/-- C4 amended: the fallback of `remaining_pot` to the full `total_pot`
happens exactly when the operator payout wallet is not configured; the outcome
of the operator-cut transfer is ignored — with a configured channel the value
is `total_pot - operator_cut` whether the cut transfer succeeds or fails. -/
theorem remaining_pot_fallback (total : ℚ) (ok ok2 : Bool) :
    remaining_pot_used total true ok = total - total * OPERATOR_CUT_PERCENT ∧
    remaining_pot_used total false ok = total ∧
    remaining_pot_used total true ok = remaining_pot_used total true ok2 := by
  norm_num [remaining_pot_used]

/-- C7 counterexample: `add_ticket` performs no input validation — a purchase
with quantity 0 and a negative amount is inserted all the same, so the claimed
`ValidationError` with no side effect does not exist in this code. -/
theorem add_ticket_accepts_nonpositive :
    (add_ticket emptyState 7 "hourly" 0 0 (-1)).tickets =
      [{ telegram_id := 7, lottery_type := "hourly", draw_date := 0,
         ticket_count := 0, amount_spent := -1, won := 0, drawn := false }] := by
  simp [add_ticket, emptyState]

/-- C7 amended: there is no input validation (callers only ever pass quantity
1 and the fixed positive ticket price), but the confirmed-purchase flow is
all-or-nothing on the payment transfer: a failed `transfer_sol` leaves the
database unchanged, and a successful one appends exactly the new ticket and
adds the price to the cadence pot. -/
theorem confirm_buy_all_or_nothing (s : LotteryState) (telegram_id : Int)
    (lottery_type : String) (now : Nat) (ticket_price : ℚ) (tx : String) :
    confirm_buy_ticket s telegram_id lottery_type now ticket_price none = s ∧
    (confirm_buy_ticket s telegram_id lottery_type now ticket_price
        (some tx)).tickets =
      s.tickets ++
        [{ telegram_id := telegram_id, lottery_type := lottery_type,
           draw_date := get_next_draw_datetime lottery_type now,
           ticket_count := 1, amount_spent := ticket_price, won := 0,
           drawn := false }] ∧
    (confirm_buy_ticket s telegram_id lottery_type now ticket_price
        (some tx)).pot lottery_type = s.pot lottery_type + ticket_price := by
  refine ⟨rfl, rfl, ?_⟩
  simp [confirm_buy_ticket, update_lottery_pot, add_ticket]

/-- C8: the operator cut rate is 10% and `remaining_pot` with a configured
channel is `total - total × 10%`; the tiers are 70% / 20% / 10% of the
remaining pot in draw order, so for a remaining pot of 1 the prizes are
exactly [0.70, 0.20, 0.10]; the prize sum equals the remaining pot exactly
(1.00 for 1) and never exceeds the total pot when the pot is non-negative. -/
theorem tier_prizes_spec (total : ℚ) (cfg ok : Bool) (h : 0 ≤ total) :
    OPERATOR_CUT_PERCENT = 1/10 ∧
    remaining_pot_used total true ok = total - total * (1/10) ∧
    tier_prizes 1 = [7/10, 2/10, 1/10] ∧
    (tier_prizes 1).sum = 1 ∧
    (∀ r : ℚ, (tier_prizes r).sum = r) ∧
    (tier_prizes (remaining_pot_used total cfg ok)).sum ≤ total := by
  have hsum : ∀ r : ℚ, (tier_prizes r).sum = r := by
    intro r
    simp [tier_prizes]
    ring
  refine ⟨by norm_num [OPERATOR_CUT_PERCENT],
    by norm_num [remaining_pot_used, OPERATOR_CUT_PERCENT],
    by norm_num [tier_prizes], by rw [hsum], hsum, ?_⟩
  rw [hsum]
  cases cfg
  · simp [remaining_pot_used]
  · simp only [remaining_pot_used, OPERATOR_CUT_PERCENT, if_true]
    norm_num
    linarith

/-- Witness for `tier_prizes_spec` at a total pot of 1 SOL with a configured
channel and a successful cut transfer. -/
theorem tier_prizes_spec_witness :
    (0 ≤ (1 : ℚ)) ∧
    (OPERATOR_CUT_PERCENT = 1/10 ∧
     remaining_pot_used 1 true true = 1 - 1 * (1/10) ∧
     tier_prizes 1 = [7/10, 2/10, 1/10] ∧
     (tier_prizes 1).sum = 1 ∧
     (∀ r : ℚ, (tier_prizes r).sum = r) ∧
     (tier_prizes (remaining_pot_used 1 true true)).sum ≤ 1) :=
  ⟨by norm_num, tier_prizes_spec 1 true true (by norm_num)⟩

end Lotto
